import Mathlib

/-!
Shallow embedding of the intraday time-series chart core of Top.AlphaPulse
(`TimeSeriesChart` component): the symmetric domain calculator, the per-sample
up/down classification used for volume-bar coloring, the axis-label and tooltip
formatters, and the chart-description pipeline assembled in the component's
effect body.  JavaScript numbers are modelled as exact rationals (ℚ); note that
division by zero yields 0 in ℚ whereas JavaScript yields Infinity, so no
theorem below asserts a percentage value at `preClose = 0`.
-/

/-- One intraday sample, mirroring the `TimeSeriesData` interface:
`{ time, price, volume, avg_price }`. -/
structure Sample where
  time : String
  price : ℚ
  volume : ℚ
  avg_price : ℚ
deriving DecidableEq

/-- A closed numeric interval `{min, max}` as used for the axis domains. -/
structure Domain where
  min : ℚ
  max : ℚ
deriving DecidableEq

/-- The pair of axis domains the domain calculator produces: the symmetric
price domain (left y-axis `min`/`max`) and the percentage domain
(right y-axis `-maxChangePct`/`maxChangePct`). -/
structure Domains where
  priceDomain : Domain
  pctDomain : Domain
deriving DecidableEq

/-- Maximum of a list of rationals, modelling the JavaScript
`Math.max(...xs)` spread call (the call sites below always pass a
non-empty list, so the `[]` default is never reached). -/
def listMax : List ℚ → ℚ
  | [] => 0
  | [x] => x
  | x :: y :: xs => max x (listMax (y :: xs))

/-- The list of candidate deviations fed to `Math.max` when computing
`maxDev`: every `|price - preClose|`, every `|avg_price - preClose|`, and
the floor `preClose * 0.005`. -/
def devList (data : List Sample) (preClose : ℚ) : List ℚ :=
  (data.map fun s => |s.price - preClose|) ++
    (data.map fun s => |s.avg_price - preClose|) ++ [preClose * 0.005]

/-- `maxDev` from the component:
`Math.max(...prices.map(|p - preClose|), ...avgPrices.map(|p - preClose|), preClose * 0.005)`. -/
def maxDev (data : List Sample) (preClose : ℚ) : ℚ :=
  listMax (devList data preClose)

/-- The domain calculator: `yMin = preClose - maxDev * 1.1`,
`yMax = preClose + maxDev * 1.1`, and the percentage axis bounds
`±maxChangePct` with `maxChangePct = (maxDev / preClose) * 100 * 1.1`. -/
def computeDomains (data : List Sample) (preClose : ℚ) : Domains :=
  let d := maxDev data preClose
  let yMin := preClose - d * 1.1
  let yMax := preClose + d * 1.1
  let maxChangePct := d / preClose * 100 * 1.1
  { priceDomain := { min := yMin, max := yMax },
    pctDomain := { min := -maxChangePct, max := maxChangePct } }

/-- The translucent red used for an "up" volume bar in the source. -/
def upVolumeColor : String := "rgba(220, 38, 38, 0.7)"

/-- The translucent green used for a "down" volume bar in the source. -/
def downVolumeColor : String := "rgba(22, 163, 74, 0.7)"

/-- The volume-bar color of the sample at `idx`: for `idx = 0` the price is
compared to `preClose`, otherwise to the previous sample's price, with `>=`
mapping to the up color in both branches. -/
def volumeColorAt (prices : List ℚ) (preClose : ℚ) (idx : Nat) : String :=
  if idx = 0 then
    if prices.getD idx 0 ≥ preClose then upVolumeColor else downVolumeColor
  else
    if prices.getD idx 0 ≥ prices.getD (idx - 1) 0 then upVolumeColor
    else downVolumeColor

/-- `volumeColors = volumes.map((_vol, idx) => ...)`: the source enumerates
the volume list but reads only the index and the price list, so the map is
rendered as a map over the indices `0 .. data.length - 1`. -/
def volumeColors (data : List Sample) (preClose : ℚ) : List String :=
  (List.range data.length).map (volumeColorAt (data.map Sample.price) preClose)

/-- The price-axis label color closure (`yAxis[0].axisLabel.color`): red above
`preClose + 0.001`, green below `preClose - 0.001`, neutral gray otherwise. -/
def priceAxisLabelColor (v preClose : ℚ) : String :=
  if v > preClose + 0.001 then "#dc2626"
  else if v < preClose - 0.001 then "#16a34a"
  else "#64748b"

/-- The percentage-axis label color closure (`yAxis[1].axisLabel.color`):
red above `0.001`, green below `-0.001`, neutral gray otherwise. -/
def pctAxisLabelColor (v : ℚ) : String :=
  if v > 0.001 then "#dc2626"
  else if v < -0.001 then "#16a34a"
  else "#64748b"

/-- The color the tooltip gives a price row: `change >= 0` selects red,
otherwise green (`change = price - preClose`). -/
def tooltipDeltaColor (price preClose : ℚ) : String :=
  if price - preClose ≥ 0 then "#dc2626" else "#16a34a"

/-- Left-pads `s` with `'0'` up to length `n`, modelling
`String.prototype.padStart(n, '0')`. -/
def padStartZero (n : Nat) (s : String) : String :=
  String.mk (List.replicate (n - s.length) '0') ++ s

/-- `Number.prototype.toFixed(d)` on an exact rational: the integer `n`
closest to `x * 10^d`, ties resolved to the larger `n` (per ECMA-262),
rendered with exactly `d` fractional digits. -/
def jsToFixed (x : ℚ) (d : Nat) : String :=
  let n : ℤ := ⌊x * (10 : ℚ) ^ d + 1 / 2⌋
  let m : Nat := n.natAbs
  let ip : Nat := m / 10 ^ d
  let fp : Nat := m % 10 ^ d
  (if n < 0 then "-" else "") ++ Nat.repr ip ++
    (if d = 0 then "" else "." ++ padStartZero d (Nat.repr fp))

/-- `Number.prototype.toString()` restricted to the integer values the chart
passes to it (volume values); non-integers render as an explicit
numerator/denominator pair, a model artifact no theorem relies on. -/
def jsNumToString (q : ℚ) : String :=
  if q.den = 1 then
    (if q.num < 0 then "-" ++ Nat.repr q.num.natAbs else Nat.repr q.num.natAbs)
  else
    Nat.repr q.num.natAbs ++ "/" ++ Nat.repr q.den

/-- The volume-axis label formatter (`yAxis[2].axisLabel.formatter`):
`>= 10000 → (v/10000).toFixed(1) + "万"`, `>= 1000 → (v/1000).toFixed(1) + "千"`,
otherwise `v.toString()`. -/
def volAxisLabelFormatter (value : ℚ) : String :=
  if value ≥ 10000 then jsToFixed (value / 10000) 1 ++ "万"
  else if value ≥ 1000 then jsToFixed (value / 1000) 1 ++ "千"
  else jsNumToString value

/-- The volume string assembled inside the tooltip formatter's `成交量`
branch: `vol >= 10000 ? (vol / 10000).toFixed(2) + '万' : vol.toString()`. -/
def tooltipVolStr (vol : ℚ) : String :=
  if vol ≥ 10000 then jsToFixed (vol / 10000) 2 ++ "万" else jsNumToString vol

/-- The fields of a JavaScript `Date` the tooltip formatter reads via
`new Date()`: `getFullYear()`, zero-based `getMonth()`, `getDate()`. -/
structure JSDate where
  fullYear : Nat
  month : Nat
  date : Nat
deriving DecidableEq

/-- The date string the tooltip formatter interpolates into its header:
`` `${getFullYear()}-${String(getMonth()+1).padStart(2,'0')}-${String(getDate()).padStart(2,'0')}` ``. -/
def tooltipDateStr (today : JSDate) : String :=
  Nat.repr today.fullYear ++ "-" ++
    padStartZero 2 (Nat.repr (today.month + 1)) ++ "-" ++
    padStartZero 2 (Nat.repr today.date)

/-- The observable chart description assembled by the effect body: the axis
domains, the latest-sample summary (including the `toFixed(2)` percentage
string), the per-bar volume colors, and the date string the tooltip formatter
would render when invoked. -/
structure ChartOutput where
  domains : Domains
  latestPrice : ℚ
  latestChange : ℚ
  latestChangePct : String
  latestVolume : ℚ
  volumeColors : List String
  tooltipDate : String
deriving DecidableEq

/-- The effect body as a function: `if data.length === 0 return` (no chart),
otherwise compute domains, summary fields and volume colors and assemble the
chart description.  `today` stands for the ambient `new Date()` the tooltip
formatter reads. -/
def buildChart (data : List Sample) (preClose : ℚ) (today : JSDate) :
    Option ChartOutput :=
  if data.length = 0 then none
  else
    let prices := data.map Sample.price
    let volumes := data.map Sample.volume
    let latestPrice := prices.getD (prices.length - 1) 0
    let latestChange := latestPrice - preClose
    some
      { domains := computeDomains data preClose
        latestPrice := latestPrice
        latestChange := latestChange
        latestChangePct := jsToFixed (latestChange / preClose * 100) 2
        latestVolume := volumes.getD (volumes.length - 1) 0
        volumeColors := volumeColors data preClose
        tooltipDate := tooltipDateStr today }

/-- What the component renders around the chart: the live chart container
when `data.length > 0`, otherwise the explicit empty-state placeholder. -/
inductive RenderView where
  | chartSurface : RenderView
  | emptyPlaceholder : String → RenderView
deriving DecidableEq

/-- The render branch: `data.length > 0 ? <chart container/> : <暂无分时数据/>`. -/
def renderView (data : List Sample) : RenderView :=
  if data.length > 0 then RenderView.chartSurface
  else RenderView.emptyPlaceholder "暂无分时数据"

/-- Tri-state directional classification named by the spec. -/
inductive Tri where
  | above : Tri
  | below : Tri
  | equal : Tri
deriving DecidableEq

/-- Modelled from the spec: the epsilon-based `vsReference` classification the
spec ascribes to per-sample comparison (`> 0.001` above, `< -0.001` below,
else equal); stated here to be compared with the source's comparisons. -/
def specVsReference (price preClose : ℚ) : Tri :=
  if price - preClose > 0.001 then Tri.above
  else if price - preClose < -0.001 then Tri.below
  else Tri.equal

theorem le_listMax_of_mem : ∀ {l : List ℚ} {x : ℚ}, x ∈ l → x ≤ listMax l
  | [], x, hx => absurd hx (List.not_mem_nil x)
  | [a], x, hx => by
      rw [List.mem_singleton] at hx
      exact le_of_eq (hx ▸ rfl)
  | a :: b :: t, x, hx => by
      rcases List.mem_cons.mp hx with h | h
      · exact h ▸ le_max_left _ _
      · exact le_trans (le_listMax_of_mem h) (le_max_right _ _)

theorem listMax_mem : ∀ {l : List ℚ}, l ≠ [] → listMax l ∈ l
  | [], h => absurd rfl h
  | [a], _ => by simp [listMax]
  | a :: b :: t, _ => by
      show max a (listMax (b :: t)) ∈ a :: b :: t
      rcases max_cases a (listMax (b :: t)) with ⟨heq, _⟩ | ⟨heq, _⟩
      · rw [heq]; exact List.mem_cons_self _ _
      · rw [heq]; exact List.mem_cons_of_mem _ (listMax_mem (by simp))

theorem getD_range_map {α : Type} (f : Nat → α) (n i : Nat) (d : α)
    (h : i < n) : ((List.range n).map f).getD i d = f i := by
  rw [List.getD_eq_getElem?_getD, List.getElem?_map, List.getElem?_range h]
  rfl

/-- C1: for every non-empty sample sequence and reference price `> 0`, the
price domain is symmetric around the reference, the percentage domain is
symmetric around zero, and the two axes are proportionally locked:
`pctDomain.max = (priceDomain.max - reference) / reference * 100`. -/
theorem domain_symmetry_pct_lock (data : List Sample) (preClose : ℚ)
    (hne : data ≠ []) (hpre : 0 < preClose) :
    (computeDomains data preClose).priceDomain.max - preClose =
        preClose - (computeDomains data preClose).priceDomain.min ∧
      (computeDomains data preClose).pctDomain.max =
        -(computeDomains data preClose).pctDomain.min ∧
      (computeDomains data preClose).pctDomain.max =
        ((computeDomains data preClose).priceDomain.max - preClose) /
          preClose * 100 := by
  have hpre' : preClose ≠ 0 := ne_of_gt hpre
  refine ⟨?_, ?_, ?_⟩
  · show preClose + maxDev data preClose * 1.1 - preClose =
      preClose - (preClose - maxDev data preClose * 1.1)
    ring
  · show maxDev data preClose / preClose * 100 * 1.1 =
      -(-(maxDev data preClose / preClose * 100 * 1.1))
    ring
  · show maxDev data preClose / preClose * 100 * 1.1 =
      (preClose + maxDev data preClose * 1.1 - preClose) / preClose * 100
    field_simp
    ring

/-- Closed instance of `domain_symmetry_pct_lock` at a concrete input. -/
theorem domain_symmetry_pct_lock_witness :
    (computeDomains [⟨"09:30", 10 + 5/100, 100, 10⟩] 10).priceDomain.max - 10 =
        10 - (computeDomains [⟨"09:30", 10 + 5/100, 100, 10⟩] 10).priceDomain.min ∧
      (computeDomains [⟨"09:30", 10 + 5/100, 100, 10⟩] 10).pctDomain.max =
        -(computeDomains [⟨"09:30", 10 + 5/100, 100, 10⟩] 10).pctDomain.min ∧
      (computeDomains [⟨"09:30", 10 + 5/100, 100, 10⟩] 10).pctDomain.max =
        ((computeDomains [⟨"09:30", 10 + 5/100, 100, 10⟩] 10).priceDomain.max - 10) /
          10 * 100 :=
  domain_symmetry_pct_lock [⟨"09:30", 10 + 5/100, 100, 10⟩] 10
    (by decide) (by norm_num)

/-- C2: `maxDev` is the maximum of all price/average deviations from the
reference, floored at `preClose * 0.005`: it dominates the floor and every
deviation, it is attained by the floor or by some sample's deviation, a flat
series hits exactly the floor, and consequently the price domain is never
zero-width. -/
theorem maxDev_is_floored_max (data : List Sample) (preClose : ℚ)
    (hne : data ≠ []) (hpre : 0 < preClose) :
    preClose * 0.005 ≤ maxDev data preClose ∧
      (∀ s ∈ data, |s.price - preClose| ≤ maxDev data preClose ∧
        |s.avg_price - preClose| ≤ maxDev data preClose) ∧
      (maxDev data preClose = preClose * 0.005 ∨
        ∃ s ∈ data, maxDev data preClose = |s.price - preClose| ∨
          maxDev data preClose = |s.avg_price - preClose|) ∧
      ((∀ s ∈ data, s.price = preClose ∧ s.avg_price = preClose) →
        maxDev data preClose = preClose * 0.005) ∧
      (computeDomains data preClose).priceDomain.min <
        (computeDomains data preClose).priceDomain.max := by
  have hfloor : preClose * 0.005 ∈ devList data preClose := by
    simp [devList]
  have h1 : preClose * 0.005 ≤ maxDev data preClose :=
    le_listMax_of_mem hfloor
  have hmem : listMax (devList data preClose) ∈ devList data preClose :=
    listMax_mem (by simp [devList])
  refine ⟨h1, ?_, ?_, ?_, ?_⟩
  · intro s hs
    constructor
    · apply le_listMax_of_mem
      simp only [devList, List.mem_append, List.mem_map]
      exact Or.inl (Or.inl ⟨s, hs, rfl⟩)
    · apply le_listMax_of_mem
      simp only [devList, List.mem_append, List.mem_map]
      exact Or.inl (Or.inr ⟨s, hs, rfl⟩)
  · simp only [devList, List.mem_append, List.mem_map,
      List.mem_singleton] at hmem
    rcases hmem with (⟨s, hs, he⟩ | ⟨s, hs, he⟩) | he
    · exact Or.inr ⟨s, hs, Or.inl he.symm⟩
    · exact Or.inr ⟨s, hs, Or.inr he.symm⟩
    · exact Or.inl he
  · intro hflat
    apply le_antisymm _ h1
    have hb : ∀ x ∈ devList data preClose, x ≤ preClose * 0.005 := by
      intro x hx
      simp only [devList, List.mem_append, List.mem_map,
        List.mem_singleton] at hx
      rcases hx with (⟨s, hs, rfl⟩ | ⟨s, hs, rfl⟩) | rfl
      · rw [(hflat s hs).1, sub_self, abs_zero]
        linarith
      · rw [(hflat s hs).2, sub_self, abs_zero]
        linarith
      · exact le_refl _
    exact hb _ hmem
  · show preClose - maxDev data preClose * 1.1 <
      preClose + maxDev data preClose * 1.1
    linarith

/-- Closed instance of `maxDev_is_floored_max`: a perfectly flat series at
reference `10` yields exactly the floor `10 * 0.005`. -/
theorem maxDev_is_floored_max_witness :
    maxDev [⟨"09:30", 10, 100, 10⟩] 10 = 10 * 0.005 :=
  (maxDev_is_floored_max [⟨"09:30", 10, 100, 10⟩] 10
    (by decide) (by norm_num)).2.2.2.1 (by decide)

/-- C3 counterexample: at `referencePrice = 0` the effect body does not fail —
it produces a chart description, and the domain calculator produces the
concrete symmetric price domain `{-1.1, 1.1}`; no `InvalidReferenceError`
exists in the code. -/
theorem zero_reference_domain_still_computed :
    buildChart [⟨"09:30", 1, 100, 1⟩] 0 ⟨2026, 0, 1⟩ ≠ none ∧
      (computeDomains [⟨"09:30", 1, 100, 1⟩] 0).priceDomain =
        { min := -(11 : ℚ)/10, max := (11 : ℚ)/10 } := by
  constructor
  · decide
  · have hmd : maxDev [⟨"09:30", 1, 100, 1⟩] 0 = 1 := by
      norm_num [maxDev, devList, listMax]
    show (Domain.mk (0 - maxDev [⟨"09:30", 1, 100, 1⟩] 0 * 1.1)
        (0 + maxDev [⟨"09:30", 1, 100, 1⟩] 0 * 1.1)) =
      { min := -(11 : ℚ)/10, max := (11 : ℚ)/10 }
    rw [hmd]
    norm_num [Domain.mk.injEq]

/-- C3 amended: the effect body performs no reference-price validation; for
every non-empty sample sequence and every reference price — including
`preClose ≤ 0` — it produces a chart description whose domains are the
calculator's output. -/
theorem buildChart_never_fails (data : List Sample) (preClose : ℚ)
    (today : JSDate) (hne : data ≠ []) :
    ∃ out, buildChart data preClose today = some out ∧
      out.domains = computeDomains data preClose := by
  have hlen : data.length ≠ 0 := fun h => hne (List.length_eq_zero.mp h)
  simp only [buildChart, if_neg hlen]
  exact ⟨_, rfl, rfl⟩

/-- Closed instance of `buildChart_never_fails` at reference price `0`. -/
theorem buildChart_never_fails_witness :
    ∃ out, buildChart [⟨"09:30", 1, 100, 1⟩] 0 ⟨2026, 0, 1⟩ = some out ∧
      out.domains = computeDomains [⟨"09:30", 1, 100, 1⟩] 0 :=
  buildChart_never_fails [⟨"09:30", 1, 100, 1⟩] 0 ⟨2026, 0, 1⟩ (by decide)

/-- C4 counterexample: a sample `0.0005` above the reference — inside the
claimed `0.001` epsilon band, hence `equal` under the spec's rule — still
receives the up color from the code's per-sample comparisons (volume bar and
tooltip delta), which use plain `>=` with no epsilon. -/
theorem per_sample_epsilon_counterexample :
    volumeColors [⟨"09:30", 10 + 5/10000, 100, 10⟩] 10 = [upVolumeColor] ∧
      tooltipDeltaColor (10 + 5/10000) 10 = "#dc2626" ∧
      specVsReference (10 + 5/10000) 10 = Tri.equal := by
  refine ⟨?_, ?_, ?_⟩
  · norm_num [volumeColors, show List.range 1 = [0] from rfl, volumeColorAt]
  · norm_num [tooltipDeltaColor]
  · norm_num [specVsReference]

/-- C4 amended: the `0.001` epsilon tri-state rule governs only axis-label
tick values (price axis against `preClose`); per-sample comparisons of price
to the reference (tooltip delta color, first volume bar) use plain `>=` with
no epsilon. -/
theorem epsilon_only_on_axis_labels (v preClose p : ℚ) :
    (priceAxisLabelColor v preClose = "#dc2626" ↔ preClose + 0.001 < v) ∧
      (priceAxisLabelColor v preClose = "#16a34a" ↔ v < preClose - 0.001) ∧
      (priceAxisLabelColor v preClose = "#64748b" ↔
        preClose - 0.001 ≤ v ∧ v ≤ preClose + 0.001) ∧
      (tooltipDeltaColor p preClose = "#dc2626" ↔ preClose ≤ p) ∧
      (volumeColorAt [p] preClose 0 = upVolumeColor ↔ preClose ≤ p) := by
  refine ⟨?_, ?_, ?_, ?_, ?_⟩
  · unfold priceAxisLabelColor
    split_ifs with h1 h2
    · exact iff_of_true rfl h1
    · exact iff_of_false (by decide) h1
    · exact iff_of_false (by decide) h1
  · unfold priceAxisLabelColor
    split_ifs with h1 h2
    · exact iff_of_false (by decide) (by linarith)
    · exact iff_of_true rfl h2
    · exact iff_of_false (by decide) h2
  · unfold priceAxisLabelColor
    split_ifs with h1 h2
    · exact iff_of_false (by decide) (fun hc => absurd h1 (not_lt.mpr hc.2))
    · exact iff_of_false (by decide) (fun hc => absurd h2 (not_lt.mpr hc.1))
    · exact iff_of_true rfl ⟨not_lt.mp h2, not_lt.mp h1⟩
  · unfold tooltipDeltaColor
    split_ifs with h1
    · exact iff_of_true rfl (by linarith)
    · exact iff_of_false (by decide) (fun hc => h1 (by linarith))
  · unfold volumeColorAt
    rw [if_pos rfl]
    have hget : ([p] : List ℚ).getD 0 0 = p := rfl
    rw [hget]
    split_ifs with h1
    · exact iff_of_true rfl h1
    · exact iff_of_false (by decide) h1

/-- C5: for every index `i > 0`, the volume bar gets the up color exactly
when `prices[i] >= prices[i-1]`; in particular a tie inherits the up color. -/
theorem volume_color_vs_previous (data : List Sample) (preClose : ℚ)
    (idx : Nat) (h0 : 0 < idx) (hlt : idx < data.length) :
    (volumeColors data preClose).getD idx "" = upVolumeColor ↔
      (data.map Sample.price).getD (idx - 1) 0 ≤
        (data.map Sample.price).getD idx 0 := by
  unfold volumeColors
  rw [getD_range_map _ _ _ _ hlt]
  unfold volumeColorAt
  rw [if_neg (Nat.pos_iff_ne_zero.mp h0)]
  split_ifs with h
  · exact iff_of_true rfl h
  · exact iff_of_false (by decide) h

/-- Closed instance of `volume_color_vs_previous`: a tie with the previous
price yields the up color. -/
theorem volume_color_vs_previous_witness :
    (volumeColors [⟨"09:30", 10, 100, 10⟩, ⟨"09:31", 10, 200, 10⟩] 10).getD 1 ""
      = upVolumeColor :=
  (volume_color_vs_previous [⟨"09:30", 10, 100, 10⟩, ⟨"09:31", 10, 200, 10⟩]
    10 1 (by decide) (by decide)).mpr (by simp)

/-- C6: the first sample's `vsPrevious` falls back to the reference
comparison: the first volume bar is colored up exactly when the code's
reference comparison (the tooltip delta rule, `change >= 0`) selects the up
color for the first sample's price. -/
theorem first_sample_fallback (data : List Sample) (preClose : ℚ)
    (hne : data ≠ []) :
    ((volumeColors data preClose).getD 0 "" = upVolumeColor ↔
      tooltipDeltaColor ((data.map Sample.price).getD 0 0) preClose
        = "#dc2626") := by
  have hlen : 0 < data.length := List.length_pos.mpr hne
  unfold volumeColors
  rw [getD_range_map _ _ _ _ hlen]
  unfold volumeColorAt tooltipDeltaColor
  rw [if_pos rfl]
  simp only [ge_iff_le, sub_nonneg]
  by_cases h : preClose ≤ (data.map Sample.price).getD 0 0
  · rw [if_pos h, if_pos h]
    exact iff_of_true rfl rfl
  · rw [if_neg h, if_neg h]
    exact iff_of_false (by decide) (by decide)

/-- Closed instance of `first_sample_fallback` on a single-sample sequence. -/
theorem first_sample_fallback_witness :
    ((volumeColors [⟨"09:30", 9, 100, 9⟩] 10).getD 0 "" = upVolumeColor ↔
      tooltipDeltaColor (([⟨"09:30", 9, 100, 9⟩].map Sample.price).getD 0 0) 10
        = "#dc2626") :=
  first_sample_fallback [⟨"09:30", 9, 100, 9⟩] 10 (by decide)

/-- C7: the empty sample sequence short-circuits before the domain
calculator runs — no chart description is produced and no exception is
raised — and the component renders the explicit empty-state placeholder. -/
theorem empty_sequence_no_chart (preClose : ℚ) (today : JSDate) :
    buildChart [] preClose today = none ∧
      renderView [] = RenderView.emptyPlaceholder "暂无分时数据" :=
  ⟨rfl, rfl⟩

/-- C8 counterexample: two runs of the pipeline on identical
`(samples, referencePrice)` but on different ambient dates produce different
chart descriptions — the tooltip formatter embeds `new Date()`, hidden state
outside the declared input. -/
theorem chart_output_depends_on_ambient_date :
    buildChart [⟨"09:30", 10, 100, 10⟩] 10 ⟨2026, 0, 1⟩ ≠
      buildChart [⟨"09:30", 10, 100, 10⟩] 10 ⟨2026, 0, 2⟩ := by
  intro h
  have e1 : (buildChart [⟨"09:30", 10, 100, 10⟩] 10 ⟨2026, 0, 1⟩).map
      ChartOutput.tooltipDate = some "2026-01-01" := rfl
  have e2 : (buildChart [⟨"09:30", 10, 100, 10⟩] 10 ⟨2026, 0, 2⟩).map
      ChartOutput.tooltipDate = some "2026-01-02" := rfl
  rw [h, e2] at e1
  exact absurd e1 (by decide)

/-- C8 amended: every date-independent part of the chart description — the
axis domains, the latest-sample summary, and the per-bar volume colors — is a
pure function of `(samples, referencePrice)`: two runs on identical input
agree on all of them, whatever ambient dates the two runs observe. -/
theorem chart_pipeline_date_independent_fields (data : List Sample)
    (preClose : ℚ) (d1 d2 : JSDate) :
    ((buildChart data preClose d1).map fun o =>
        (o.domains, o.latestPrice, o.latestChange, o.latestChangePct,
          o.latestVolume, o.volumeColors)) =
      ((buildChart data preClose d2).map fun o =>
        (o.domains, o.latestPrice, o.latestChange, o.latestChangePct,
          o.latestVolume, o.volumeColors)) := by
  by_cases h : data.length = 0
  · simp only [buildChart, if_pos h]
  · simp only [buildChart, if_neg h]
    rfl

theorem jsNumToString_natCast (n : Nat) :
    jsNumToString (n : ℚ) = Nat.repr n := by
  have hden : ((n : ℚ)).den = 1 := Rat.den_natCast n
  have hnum : ((n : ℚ)).num = (n : ℤ) := Rat.num_natCast n
  unfold jsNumToString
  rw [if_pos hden,
    if_neg (by rw [hnum]; exact Int.not_lt.mpr (Int.natCast_nonneg n)), hnum]
  simp

/-- C9 counterexample: the tooltip does not apply the axis's three-tier
abbreviation: at volume `5000` the axis label reads `5.0千` while the tooltip
reports the raw `5000`, and at `12345` the axis shows one decimal (`1.2万`)
while the tooltip shows two (`1.23万`). -/
theorem tooltip_volume_not_same_abbreviation :
    volAxisLabelFormatter ((5000 : Nat) : ℚ) = "5.0千" ∧
      tooltipVolStr ((5000 : Nat) : ℚ) = "5000" ∧
      volAxisLabelFormatter ((12345 : Nat) : ℚ) = "1.2万" ∧
      tooltipVolStr ((12345 : Nat) : ℚ) = "1.23万" ∧
      ("5.0千" : String) ≠ "5000" ∧ ("1.2万" : String) ≠ "1.23万" := by
  refine ⟨?_, ?_, ?_, ?_, by decide, by decide⟩
  · unfold volAxisLabelFormatter
    rw [if_neg (by norm_num), if_pos (by norm_num)]
    unfold jsToFixed
    rw [show (⌊((5000 : Nat) : ℚ) / 1000 * (10 : ℚ) ^ 1 + 1 / 2⌋ : ℤ) = 50 by
      norm_num]
    decide
  · unfold tooltipVolStr
    rw [if_neg (by norm_num), jsNumToString_natCast]
    decide
  · unfold volAxisLabelFormatter
    rw [if_pos (by norm_num)]
    unfold jsToFixed
    rw [show (⌊((12345 : Nat) : ℚ) / 10000 * (10 : ℚ) ^ 1 + 1 / 2⌋ : ℤ) = 12 by
      norm_num]
    decide
  · unfold tooltipVolStr
    rw [if_pos (by norm_num)]
    unfold jsToFixed
    rw [show (⌊((12345 : Nat) : ℚ) / 10000 * (10 : ℚ) ^ 2 + 1 / 2⌋ : ℤ) = 123 by
      norm_num]
    decide

/-- C9 amended: the volume axis applies the three-tier abbreviation
(`>= 10000 → /10000` with 1 decimal and `万`; `>= 1000 → /1000` with 1
decimal and `千`; else the raw integer), while the tooltip applies a two-tier
rule of its own (`>= 10000 → /10000` with 2 decimals and `万`; else the raw
integer) — so the two renderings differ on `[1000, 10000)` and in decimal
count on the `万` tier. -/
theorem volume_label_tiers (n : Nat) :
    ((n : ℚ) < 1000 → volAxisLabelFormatter (n : ℚ) = Nat.repr n ∧
        tooltipVolStr (n : ℚ) = Nat.repr n) ∧
      (1000 ≤ (n : ℚ) → (n : ℚ) < 10000 →
        volAxisLabelFormatter (n : ℚ) = jsToFixed ((n : ℚ) / 1000) 1 ++ "千" ∧
        tooltipVolStr (n : ℚ) = Nat.repr n) ∧
      (10000 ≤ (n : ℚ) →
        volAxisLabelFormatter (n : ℚ) = jsToFixed ((n : ℚ) / 10000) 1 ++ "万" ∧
        tooltipVolStr (n : ℚ) = jsToFixed ((n : ℚ) / 10000) 2 ++ "万") := by
  refine ⟨?_, ?_, ?_⟩
  · intro h
    have h1 : ¬((n : ℚ) ≥ 10000) := not_le.mpr (h.trans (by norm_num))
    have h2 : ¬((n : ℚ) ≥ 1000) := not_le.mpr h
    refine ⟨?_, ?_⟩
    · unfold volAxisLabelFormatter
      rw [if_neg h1, if_neg h2]
      exact jsNumToString_natCast n
    · unfold tooltipVolStr
      rw [if_neg h1]
      exact jsNumToString_natCast n
  · intro hl hu
    have h1 : ¬((n : ℚ) ≥ 10000) := not_le.mpr hu
    refine ⟨?_, ?_⟩
    · unfold volAxisLabelFormatter
      rw [if_neg h1, if_pos hl]
    · unfold tooltipVolStr
      rw [if_neg h1]
      exact jsNumToString_natCast n
  · intro hge
    refine ⟨?_, ?_⟩
    · unfold volAxisLabelFormatter
      rw [if_pos hge]
    · unfold tooltipVolStr
      rw [if_pos hge]

/-- Closed instance of `volume_label_tiers` on the middle tier. -/
theorem volume_label_tiers_witness :
    volAxisLabelFormatter ((5000 : Nat) : ℚ) =
        jsToFixed (((5000 : Nat) : ℚ) / 1000) 1 ++ "千" ∧
      tooltipVolStr ((5000 : Nat) : ℚ) = Nat.repr 5000 :=
  (volume_label_tiers 5000).2.1 (by norm_num) (by norm_num)

/-- C10: the volume-bar colors are a function of the price sequence and the
reference price only — two inputs with identical prices get identical
per-bar colors no matter how their volume values differ. -/
theorem volume_colors_ignore_volumes (d1 d2 : List Sample) (preClose : ℚ)
    (h : d1.map Sample.price = d2.map Sample.price) :
    volumeColors d1 preClose = volumeColors d2 preClose := by
  have hlen : d1.length = d2.length := by
    simpa using congrArg List.length h
  unfold volumeColors
  rw [hlen, h]

/-- Closed instance of `volume_colors_ignore_volumes`: same prices,
different volumes, identical colors. -/
theorem volume_colors_ignore_volumes_witness :
    volumeColors [⟨"09:30", 10, 100, 10⟩] 10 =
      volumeColors [⟨"09:30", 10, 99999, 10⟩] 10 :=
  volume_colors_ignore_volumes [⟨"09:30", 10, 100, 10⟩]
    [⟨"09:30", 10, 99999, 10⟩] 10 rfl
